import Mathlib

set_option linter.unusedVariables false

/-!
Shallow embedding of the WhatsApp-clone backend's webhook pipeline:
payload normalization (processPayload.ts), the message store modelled as a
list of records in insertion order, the controller endpoints
(controllers.ts: sendMessage, updateMessageStatus, getConversations), and
the socket events each path emits.  JavaScript's truthiness on strings
(empty string is falsy) is modelled explicitly by jsOrS.
-/

namespace WhatsApp

/-- Model of the JavaScript expression a || b where a is an optional string:
an absent or empty string falls through to the default. -/
def jsOrS (a : Option String) (b : String) : String :=
  match a with
  | some s => if s = "" then b else s
  | none => b

/-- One stored message document (models.ts, collection processed_messages).
Dates are modelled as natural numbers (milliseconds). -/
structure Msg where
  conversationId : String
  messageId : String
  from_ : String
  to_ : String
  timestamp : Nat
  type : String
  body : String
  status : String
  userName : String
  createdAt : Nat
  updatedAt : Nat
deriving DecidableEq

/-- Inbound webhook message entry (interface WhatsAppMessage); the nested
optional media objects are flattened to the single optional field the code
reads through optional chaining. -/
structure WaMessage where
  id : String
  from_ : String
  to_ : Option String
  timestamp : String
  type : String
  textBody : Option String
  imageCaption : Option String
  documentFilename : Option String
  videoCaption : Option String
deriving DecidableEq

/-- Inbound webhook status entry (interface WhatsAppStatus); id is optional
here because the code guards against its absence at runtime. -/
structure WaStatus where
  id : Option String
  metaMsgId : Option String
  status : String
  timestamp : String
  recipientId : String
deriving DecidableEq

/-- Webhook metadata block (interface WhatsAppMetadata). -/
structure WaMetadata where
  displayPhoneNumber : String
  phoneNumberId : String
deriving DecidableEq

/-- Webhook contact block (interface WhatsAppContact). -/
structure WaContact where
  profileName : String
  waId : String
deriving DecidableEq

/-- Webhook change value (interface WhatsAppValue). -/
structure WaValue where
  metadata : Option WaMetadata
  contacts : Option (List WaContact)
  messages : Option (List WaMessage)
  statuses : Option (List WaStatus)
deriving DecidableEq

/-- Socket.IO events emitted to a conversation channel. -/
inductive SocketEvent
  | newMessage (channel : String) (message : Msg)
  | statusUpdated (channel : String) (messageId : String) (status : String)
      (updatedAt : Nat)
deriving DecidableEq

/-- Outcome of processMessage, mirroring its log-and-return branches. -/
inductive MsgResult
  | invalidData
  | duplicate
  | inserted
deriving DecidableEq

/-- Outcome of processStatusUpdate, mirroring its log-and-return branches. -/
inductive StatusResult
  | noStatus
  | noMessageId
  | invalidStatus
  | updated
  | notFound
deriving DecidableEq

/-- Outcome of the updateMessageStatus endpoint (HTTP 400/400/404/200). -/
inductive UpdateResult
  | missingFields
  | invalidStatus
  | notFound
  | ok (updated : Msg)
deriving DecidableEq

/-- Outcome of the sendMessage endpoint (HTTP 400/201). -/
inductive SendResult
  | missingFields
  | created (saved : Msg)
deriving DecidableEq

/-- The business number resolution in processMessage:
metadata?.phone_number_id || metadata?.display_phone_number || '918329446654'. -/
def businessNumberOf (v : WaValue) : String :=
  jsOrS (v.metadata.map WaMetadata.phoneNumberId)
    (jsOrS (v.metadata.map WaMetadata.displayPhoneNumber) ("918329446654"))

/-- Character-list model of String.toUpperCase, evaluable by the kernel. -/
def strUpper (s : String) : String :=
  String.mk (s.data.map Char.toUpper)

/-- Character-list model of String.trim, evaluable by the kernel. -/
def strTrim (s : String) : String :=
  String.mk (((s.data.dropWhile Char.isWhitespace).reverse.dropWhile
    Char.isWhitespace).reverse)

/-- Character-list model of the decimal parse used for timestamps. -/
def strDecimal (s : String) : Option Nat :=
  if s ≠ "" ∧ s.data.all Char.isDigit then
    some (s.data.foldl (fun n c => n * 10 + (c.toNat - 48)) 0)
  else none

/-- Character-list model of startsWith on the single character plus. -/
def startsWithPlus (s : String) : Bool :=
  match s.data with
  | c :: _ => c == '+'
  | [] => false

/-- Body extraction by content type in processMessage. -/
def extractBody (m : WaMessage) : String :=
  if m.type = "text" then jsOrS m.textBody ("")
  else if m.type = "image" then jsOrS m.imageCaption ("[Image]")
  else if m.type = "document" then jsOrS m.documentFilename ("[Document]")
  else if m.type = "audio" then "[Voice Message]"
  else if m.type = "video" then jsOrS m.videoCaption ("[Video]")
  else "[" ++ strUpper m.type ++ "]"

/-- Model of new Date(parseInt(message.timestamp) * 1000) for the numeric
strings the upstream source sends. -/
def parseTimestamp (s : String) : Nat :=
  ((strDecimal s).getD 0) * 1000

/-- The record processMessage constructs for a fresh message. -/
def mkRecord (v : WaValue) (m : WaMessage) (now : Nat) : Msg :=
  let businessNumber := businessNumberOf v
  let userNumber := if m.from_ ≠ businessNumber then m.from_ else jsOrS m.to_ ("")
  let isFromBusiness := m.from_ = businessNumber
  let contactName : Option String :=
    ((v.contacts.getD []).head?).map WaContact.profileName
  { conversationId := "conv_" ++ userNumber
    messageId := m.id
    from_ := m.from_
    to_ := if isFromBusiness then userNumber else businessNumber
    timestamp := parseTimestamp m.timestamp
    type := if m.type = "" then "text" else m.type
    body := extractBody m
    status := "sent"
    userName := jsOrS contactName (if isFromBusiness then "Business" else "Unknown User")
    createdAt := now
    updatedAt := now }

/-- processMessage: dedup check by messageId, then insert; emits no socket
event (the webhook path has no reference to the Socket.IO server). -/
def processMessage (v : WaValue) (store : List Msg) (now : Nat) :
    MsgResult × List Msg × List SocketEvent :=
  match (v.messages.getD []).head? with
  | none => (.invalidData, store, [])
  | some m =>
    if m.id = "" then (.invalidData, store, [])
    else if (store.find? (fun r => r.messageId == m.id)).isSome then
      (.duplicate, store, [])
    else (.inserted, store ++ [mkRecord v m now], [])

/-- The accepted status strings (processPayload.ts and controllers.ts). -/
def validStatuses : List String := ["sent", "delivered", "read"]

/-- The message identifier a status entry targets:
statusUpdate.id || statusUpdate.meta_msg_id. -/
def statusTargetId (st : WaStatus) : String :=
  jsOrS st.id (jsOrS st.metaMsgId (""))

/-- Model of Message.updateOne({messageId}, {$set: {status, updatedAt}}):
set status and updatedAt on the first record whose messageId matches. -/
def setStatusFirst (mid s : String) (now : Nat) : List Msg → List Msg
  | [] => []
  | r :: rs =>
    if r.messageId = mid then { r with status := s, updatedAt := now } :: rs
    else r :: setStatusFirst mid s now rs

/-- processStatusUpdate: validates the status string, then performs an
unconditional updateOne by messageId; emits no socket event. -/
def processStatusUpdate (v : WaValue) (store : List Msg) (now : Nat) :
    StatusResult × List Msg × List SocketEvent :=
  match (v.statuses.getD []).head? with
  | none => (.noStatus, store, [])
  | some st =>
    let messageId := statusTargetId st
    if messageId = "" then (.noMessageId, store, [])
    else if ¬ (st.status ∈ validStatuses) then (.invalidStatus, store, [])
    else if (store.find? (fun r => r.messageId == messageId)).isSome then
      (.updated, setStatusFirst messageId st.status now store, [])
    else (.notFound, store, [])

/-- Model of Message.findOneAndUpdate({messageId}, {status, updatedAt},
{new: true}): update the first match and return the updated document. -/
def findOneAndUpdateStatus (mid s : String) (now : Nat) :
    List Msg → Option Msg × List Msg
  | [] => (none, [])
  | r :: rs =>
    if r.messageId = mid then
      let r2 := { r with status := s, updatedAt := now }
      (some r2, r2 :: rs)
    else
      let rec2 := findOneAndUpdateStatus mid s now rs
      (rec2.1, r :: rec2.2)

/-- The updateMessageStatus endpoint (controllers.ts): field presence check,
status whitelist check, findOneAndUpdate, then a message-status-updated emit
to the updated record's conversationId channel. -/
def updateMessageStatus (messageId status : String) (store : List Msg)
    (now : Nat) : UpdateResult × List Msg × List SocketEvent :=
  if messageId = "" ∨ status = "" then (.missingFields, store, [])
  else if ¬ (status ∈ validStatuses) then (.invalidStatus, store, [])
  else
    match findOneAndUpdateStatus messageId status now store with
    | (none, _) => (.notFound, store, [])
    | (some u, store2) =>
      (.ok u, store2, [.statusUpdated u.conversationId messageId status u.updatedAt])

/-- The sendMessage endpoint (controllers.ts): field presence check, insert
with a fresh id and status sent, then a new-message emit carrying the saved
record to the conversationId channel. -/
def sendMessage (conversationId from_ to_ body : String) (userName : Option String)
    (freshId : String) (store : List Msg) (now : Nat) :
    SendResult × List Msg × List SocketEvent :=
  if conversationId = "" ∨ from_ = "" ∨ to_ = "" ∨ body = "" then
    (.missingFields, store, [])
  else
    let newMessage : Msg :=
      { conversationId := conversationId
        messageId := freshId
        from_ := from_
        to_ := to_
        timestamp := now
        type := "text"
        body := strTrim body
        status := "sent"
        userName := jsOrS userName ("Business")
        createdAt := now
        updatedAt := now }
    (.created newMessage, store ++ [newMessage],
      [.newMessage conversationId newMessage])

/-- Model of phoneNumber.replace(/[^\x5cd+]/g, ''): keep digits and plus. -/
def cleanPhone (s : String) : String :=
  String.mk (s.toList.filter (fun c => c.isDigit || c == '+'))

/-- Helper extractPhoneNumber from processPayload.ts. -/
def extractPhoneNumber (s : String) : Option String :=
  if s = "" then none
  else
    let cleaned := cleanPhone s
    some (if startsWithPlus cleaned then cleaned.drop 1 else cleaned)

/-- Helper getConversationId from processPayload.ts; a null cleaned number
renders as the string null inside the template literal. -/
def getConversationId (userNumber businessNumber : String) : String :=
  "conv_" ++ ((extractPhoneNumber userNumber).getD ("null"))

/-- One row of the getConversations aggregation result. -/
structure ConvSummary where
  conversationId : String
  userName : String
  lastMessageBody : String
  lastTimestamp : Nat
  messageCount : Nat
  participants : List String
deriving DecidableEq

/-- Ascending order on messages by their timestamp field, the $sort stage
of the aggregation. -/
def msgLe (a b : Msg) : Prop := a.timestamp ≤ b.timestamp

instance : DecidableRel msgLe := fun a b => Nat.decLe a.timestamp b.timestamp

instance : IsTotal Msg msgLe := ⟨fun a b => Nat.le_total a.timestamp b.timestamp⟩

instance : IsTrans Msg msgLe := ⟨fun _ _ _ => Nat.le_trans⟩

/-- Descending order on summaries by lastTimestamp, the final $sort stage. -/
def summaryGe (a b : ConvSummary) : Prop := b.lastTimestamp ≤ a.lastTimestamp

instance : DecidableRel summaryGe := fun a b => Nat.decLe b.lastTimestamp a.lastTimestamp

instance : IsTotal ConvSummary summaryGe := ⟨fun a b => (Nat.le_total b.lastTimestamp a.lastTimestamp)⟩

instance : IsTrans ConvSummary summaryGe := ⟨fun _ _ _ h1 h2 => Nat.le_trans h2 h1⟩

/-- The $group and $project stages for one conversation key, taking the
documents in timestamp-sorted arrival order: last document supplies body and
timestamp, the count is the group size, participants collects distinct
userNames, and the displayed name is the first non-Business userName with a
plus-number fallback synthesized by dropping the conv_ prefix. -/
def mkSummary (sorted : List Msg) (cid : String) : ConvSummary :=
  let grp := sorted.filter (fun m => m.conversationId == cid)
  { conversationId := cid
    userName :=
      match grp.find? (fun m => !(m.userName == "Business")) with
      | some m => m.userName
      | none => "+" ++ cid.drop 5
    lastMessageBody := ((grp.getLast?).map Msg.body).getD ("")
    lastTimestamp := ((grp.getLast?).map Msg.timestamp).getD 0
    messageCount := grp.length
    participants := (grp.map Msg.userName).dedup }

/-- The getConversations aggregation (controllers.ts): sort all messages by
timestamp ascending, group by conversationId, project one summary per group,
then sort the summaries by lastTimestamp descending. -/
def getConversations (store : List Msg) : List ConvSummary :=
  let sorted := List.insertionSort msgLe store
  let cids := (sorted.map Msg.conversationId).dedup
  List.insertionSort summaryGe (cids.map (mkSummary sorted))

/-! Concrete fixtures used by the per-claim witnesses and counterexamples. -/

/-- Fixture: a stored message that has already reached status read. -/
def c1Record : Msg :=
  { conversationId := "conv_5551234", messageId := "m1", from_ := "5551234",
    to_ := "918329446654", timestamp := 1000000, type := "text", body := "hi",
    status := "read", userName := "Ravi", createdAt := 1, updatedAt := 1 }

/-- Fixture: the status entry requesting the backward move to sent. -/
def c1Status : WaStatus :=
  { id := some "m1", metaMsgId := none, status := "sent", timestamp := "1001",
    recipientId := "5551234" }

/-- Fixture: a webhook status envelope requesting the backward move to sent. -/
def c1Value : WaValue :=
  { metadata := none, contacts := none, messages := none,
    statuses := some [c1Status] }

/-- Fixture: metadata naming the business number on both fields. -/
def c2Metadata : WaMetadata :=
  { displayPhoneNumber := "918329446654", phoneNumberId := "918329446654" }

/-- Fixture: the upstream contact profile of the external user. -/
def c2Contact : WaContact :=
  { profileName := "Ravi Kumar", waId := "5551234" }

/-- Fixture: a fresh inbound text message entry from an external user. -/
def c2Message : WaMessage :=
  { id := "m2", from_ := "5551234", to_ := some "918329446654",
    timestamp := "1000", type := "text", textBody := some "hi",
    imageCaption := none, documentFilename := none, videoCaption := none }

/-- Fixture: a fresh inbound text message envelope from an external user. -/
def c2Value : WaValue :=
  { metadata := some c2Metadata, contacts := some [c2Contact],
    messages := some [c2Message], statuses := none }

/-- Fixture: a stored message whose id the duplicate envelope reuses. -/
def c4Record : Msg :=
  { conversationId := "conv_5551234", messageId := "m4", from_ := "5551234",
    to_ := "918329446654", timestamp := 1000000, type := "text", body := "old",
    status := "delivered", userName := "Ravi", createdAt := 1, updatedAt := 2 }

/-- Fixture: a message entry re-delivering the id m4. -/
def c4Message : WaMessage :=
  { id := "m4", from_ := "5551234", to_ := none, timestamp := "1000",
    type := "text", textBody := some "hi again", imageCaption := none,
    documentFilename := none, videoCaption := none }

/-- Fixture: a webhook message envelope re-delivering the id m4. -/
def c4Value : WaValue :=
  { metadata := none, contacts := none, messages := some [c4Message],
    statuses := none }

/-- Fixture: an inbound image message carrying a caption. -/
def c5Message : WaMessage :=
  { id := "m5", from_ := "5551234", to_ := none, timestamp := "1000",
    type := "image", textBody := none, imageCaption := some "holiday pic",
    documentFilename := none, videoCaption := none }

/-- Fixture: a stored message awaiting a status transition. -/
def c3Record : Msg :=
  { conversationId := "conv_5551234", messageId := "m1", from_ := "5551234",
    to_ := "918329446654", timestamp := 1000000, type := "text", body := "hi",
    status := "sent", userName := "Ravi", createdAt := 1, updatedAt := 1 }

/-- Fixture: the status entry of the spec scenario moving m1 to delivered. -/
def c3Status : WaStatus :=
  { id := some "m1", metaMsgId := none, status := "delivered",
    timestamp := "1001", recipientId := "5551234" }

/-- Fixture: the webhook status envelope of the spec scenario. -/
def c3Value : WaValue :=
  { metadata := none, contacts := none, messages := none,
    statuses := some [c3Status] }

/-- Fixture: a status entry with an unrecognized status string. -/
def c6Status : WaStatus :=
  { id := some "m1", metaMsgId := none, status := "failed", timestamp := "1001",
    recipientId := "5551234" }

/-- Fixture: a webhook status envelope with an unrecognized status string. -/
def c6Value : WaValue :=
  { metadata := none, contacts := none, messages := none,
    statuses := some [c6Status] }

/-- Fixture: a status entry whose id matches nothing in the store. -/
def c7Status : WaStatus :=
  { id := some "ghost", metaMsgId := none, status := "read", timestamp := "1001",
    recipientId := "5551234" }

/-- Fixture: a webhook status envelope whose id matches nothing in the store. -/
def c7Value : WaValue :=
  { metadata := none, contacts := none, messages := none,
    statuses := some [c7Status] }

/-- Fixture: a fresh inbound message entry for the webhook fan-out check. -/
def c8Message : WaMessage :=
  { id := "m8", from_ := "5551234", to_ := some "918329446654",
    timestamp := "1000", type := "text", textBody := some "hello",
    imageCaption := none, documentFilename := none, videoCaption := none }

/-- Fixture: a fresh inbound message envelope for the webhook fan-out check. -/
def c8Value : WaValue :=
  { metadata := none, contacts := some [c2Contact], messages := some [c8Message],
    statuses := none }

/-- Fixture: first message of conversation conv_111. -/
def c9MsgA1 : Msg :=
  { conversationId := "conv_111", messageId := "a1", from_ := "111",
    to_ := "918329446654", timestamp := 5, type := "text", body := "first",
    status := "sent", userName := "Anu", createdAt := 1, updatedAt := 1 }

/-- Fixture: only message of conversation conv_222, business-sent. -/
def c9MsgB1 : Msg :=
  { conversationId := "conv_222", messageId := "b1", from_ := "918329446654",
    to_ := "222", timestamp := 9, type := "text", body := "yo",
    status := "sent", userName := "Business", createdAt := 1, updatedAt := 1 }

/-- Fixture: second message of conversation conv_111, business-sent. -/
def c9MsgA2 : Msg :=
  { conversationId := "conv_111", messageId := "a2", from_ := "918329446654",
    to_ := "111", timestamp := 7, type := "text", body := "second",
    status := "sent", userName := "Business", createdAt := 1, updatedAt := 1 }

/-- Fixture: a three-message store over two conversations. -/
def c9Store : List Msg := [c9MsgA1, c9MsgB1, c9MsgA2]

/-- Fixture: metadata whose phone_number_id carries formatting characters. -/
def c10Metadata : WaMetadata :=
  { displayPhoneNumber := "911111111111", phoneNumberId := "+91 832-9446654" }

/-- Fixture: a message entry sent by the business side itself. -/
def c10Message : WaMessage :=
  { id := "m10", from_ := "+91 832-9446654", to_ := some "5551234",
    timestamp := "1000", type := "text", textBody := some "hi",
    imageCaption := none, documentFilename := none, videoCaption := none }

/-- Fixture: a fresh inbound message envelope sent by the business side. -/
def c10Value : WaValue :=
  { metadata := some c10Metadata, contacts := none,
    messages := some [c10Message], statuses := none }

/-- Fixture: a message whose sender is the business number written with a
leading plus, which exact string comparison treats as an external party. -/
def c10MessageB : WaMessage :=
  { id := "m10b", from_ := "+918329446654", to_ := some "5551234",
    timestamp := "1000", type := "text", textBody := some "hi",
    imageCaption := none, documentFilename := none, videoCaption := none }

/-- Fixture: the envelope wrapping c10MessageB with the plain business
number in the metadata. -/
def c10ValueB : WaValue :=
  { metadata := some c2Metadata, contacts := none,
    messages := some [c10MessageB], statuses := none }

/-! Helper lemmas about the store primitives. -/

theorem find?_isSome_of_mem {store : List Msg} {mid : String} {r : Msg}
    (hr : r ∈ store) (hid : r.messageId = mid) :
    (store.find? (fun x => x.messageId == mid)).isSome := by
  rw [List.find?_isSome]
  exact ⟨r, hr, by simp [hid]⟩

theorem find?_eq_none_of_fresh {store : List Msg} {mid : String}
    (h : ∀ r ∈ store, r.messageId ≠ mid) :
    store.find? (fun x => x.messageId == mid) = none := by
  rw [List.find?_eq_none]
  intro x hx
  simp [h x hx]

/-- C4: a new-message envelope whose id already exists in storage is a
no-op: nothing is inserted, the store is unchanged record for record, no
event is emitted, and the outcome is the duplicate skip, which is distinct
from the invalid-data failure. -/
theorem C4_duplicate_is_noop (v : WaValue) (store : List Msg) (now : Nat)
    (m : WaMessage) (rest : List WaMessage) (r : Msg)
    (hm : v.messages = some (m :: rest)) (hid : m.id ≠ "")
    (hr : r ∈ store) (hdup : r.messageId = m.id) :
    processMessage v store now = (.duplicate, store, []) ∧
    MsgResult.duplicate ≠ MsgResult.invalidData := by
  refine ⟨?_, by decide⟩
  have hs := find?_isSome_of_mem hr hdup
  simp [processMessage, hm, hid, hs]

/-- C4 witness: re-delivering id m4 leaves the singleton store unchanged. -/
theorem C4_witness :
    processMessage c4Value [c4Record] 9 = (.duplicate, [c4Record], []) :=
  (C4_duplicate_is_noop c4Value [c4Record] 9 c4Message [] c4Record rfl
    (by decide) (by simp) (by decide)).1

/-- C2: a valid never-seen message envelope inserts exactly one record, with
status sent, and its conversationId is conv_ prefixed to the non-business
party's raw number, derived the same way whether the business is the sender
or the recipient of the message. -/
theorem C2_fresh_insert (v : WaValue) (store : List Msg) (now : Nat)
    (m : WaMessage) (rest : List WaMessage)
    (hm : v.messages = some (m :: rest)) (hid : m.id ≠ "")
    (hfresh : ∀ r ∈ store, r.messageId ≠ m.id) :
    processMessage v store now = (.inserted, store ++ [mkRecord v m now], []) ∧
    (mkRecord v m now).status = "sent" ∧
    (mkRecord v m now).messageId = m.id ∧
    (m.from_ ≠ businessNumberOf v →
      (mkRecord v m now).conversationId = "conv_" ++ m.from_) ∧
    (∀ p, m.from_ = businessNumberOf v → m.to_ = some p → p ≠ "" →
      (mkRecord v m now).conversationId = "conv_" ++ p) := by
  refine ⟨?_, rfl, rfl, ?_, ?_⟩
  · have hnone := find?_eq_none_of_fresh hfresh
    simp [processMessage, hm, hid, hnone]
  · intro hne
    simp [mkRecord, hne]
  · intro p heq hto hp
    simp [mkRecord, heq, hto, jsOrS, hp]

/-- C2 witness: the spec scenario message m2 from 5551234 is stored once
with status sent under conv_5551234. -/
theorem C2_witness :
    processMessage c2Value [] 9 = (.inserted, [mkRecord c2Value c2Message 9], []) ∧
    (mkRecord c2Value c2Message 9).status = "sent" ∧
    (mkRecord c2Value c2Message 9).conversationId = "conv_5551234" := by
  have h := C2_fresh_insert c2Value [] 9 c2Message [] rfl (by decide)
    (by intro r hr; simp at hr)
  refine ⟨h.1, h.2.1, ?_⟩
  rw [h.2.2.2.1 (by decide)]
  rfl

/-- C5: stored body precedence per content type: text takes the literal
body; image, document and video take the caption or filename when a
nonempty one is present and their placeholder otherwise; audio is the fixed
voice placeholder; any other type is the bracketed uppercase type name; and
the record inserted for a fresh message stores exactly this extraction. -/
theorem C5_body_precedence (m : WaMessage) :
    (m.type = "text" → extractBody m = m.textBody.getD ("")) ∧
    (m.type = "image" →
      (∀ c, m.imageCaption = some c → c ≠ "" → extractBody m = c) ∧
      ((m.imageCaption = none ∨ m.imageCaption = some "") →
        extractBody m = "[Image]")) ∧
    (m.type = "document" →
      (∀ c, m.documentFilename = some c → c ≠ "" → extractBody m = c) ∧
      ((m.documentFilename = none ∨ m.documentFilename = some "") →
        extractBody m = "[Document]")) ∧
    (m.type = "audio" → extractBody m = "[Voice Message]") ∧
    (m.type = "video" →
      (∀ c, m.videoCaption = some c → c ≠ "" → extractBody m = c) ∧
      ((m.videoCaption = none ∨ m.videoCaption = some "") →
        extractBody m = "[Video]")) ∧
    (m.type ∉ (["text", "image", "document", "audio", "video"] : List String) →
      extractBody m = "[" ++ strUpper m.type ++ "]") ∧
    (∀ v store now rest, v.messages = some (m :: rest) → m.id ≠ "" →
      (∀ r ∈ store, r.messageId ≠ m.id) →
      (processMessage v store now).2.1 = store ++ [mkRecord v m now] ∧
      (mkRecord v m now).body = extractBody m) := by
  refine ⟨?_, ?_, ?_, ?_, ?_, ?_, ?_⟩
  · intro h
    simp only [extractBody, if_pos h]
    cases m.textBody with
    | none => rfl
    | some s =>
      by_cases hs : s = ""
      · simp [jsOrS, hs]
      · simp [jsOrS, hs]
  · intro h
    constructor
    · intro c hc hne
      simp [extractBody, h, hc, jsOrS, hne]
    · intro hcap
      rcases hcap with hcap | hcap <;> simp [extractBody, h, hcap, jsOrS]
  · intro h
    constructor
    · intro c hc hne
      simp [extractBody, h, hc, jsOrS, hne]
    · intro hcap
      rcases hcap with hcap | hcap <;> simp [extractBody, h, hcap, jsOrS]
  · intro h
    simp [extractBody, h]
  · intro h
    constructor
    · intro c hc hne
      simp [extractBody, h, hc, jsOrS, hne]
    · intro hcap
      rcases hcap with hcap | hcap <;> simp [extractBody, h, hcap, jsOrS]
  · intro h
    simp only [List.mem_cons, List.not_mem_nil, or_false, not_or] at h
    obtain ⟨h1, h2, h3, h4, h5⟩ := h
    simp [extractBody, h1, h2, h3, h4, h5]
  · intro v store now rest hm hid hfresh
    have hnone := find?_eq_none_of_fresh hfresh
    exact ⟨by simp [processMessage, hm, hid, hnone], rfl⟩

/-- C5 witness: an image message with the caption holiday pic stores that
caption as its body. -/
theorem C5_witness : extractBody c5Message = "holiday pic" :=
  ((C5_body_precedence c5Message).2.1 rfl).1 ("holiday pic") rfl (by decide)

theorem mem_validStatuses_ne_empty {s : String} (h : s ∈ validStatuses) :
    s ≠ "" := by
  simp only [validStatuses, List.mem_cons, List.not_mem_nil, or_false] at h
  rcases h with rfl | rfl | rfl <;> decide

theorem findOneAndUpdateStatus_none (mid s : String) (now : Nat) :
    ∀ (store : List Msg), (∀ r ∈ store, r.messageId ≠ mid) →
      findOneAndUpdateStatus mid s now store = (none, store)
  | [], _ => rfl
  | r :: rs, h => by
    have hr : r.messageId ≠ mid := h r (List.mem_cons_self r rs)
    have ih := findOneAndUpdateStatus_none mid s now rs
      (fun x hx => h x (List.mem_cons_of_mem r hx))
    simp [findOneAndUpdateStatus, hr, ih]

theorem findOneAndUpdateStatus_first (mid s : String) (now : Nat) :
    ∀ (store : List Msg) (r : Msg),
      store.find? (fun x => x.messageId == mid) = some r →
      (findOneAndUpdateStatus mid s now store).1 =
        some { r with status := s, updatedAt := now }
  | [], r, h => by simp [List.find?] at h
  | a :: rs, r, h => by
    by_cases ha : a.messageId = mid
    · have har : a = r := by
        rw [List.find?_cons_of_pos] at h
        · simpa using h
        · simp [ha]
      subst har
      simp [findOneAndUpdateStatus, ha]
    · rw [List.find?_cons_of_neg] at h
      · have ih := findOneAndUpdateStatus_first mid s now rs r h
        simp [findOneAndUpdateStatus, ha, ih]
      · simp [ha]

/-- C6: a status-transition request with a status string outside sent,
delivered, read is rejected before any store write on both the webhook path
and the direct endpoint: the store is untouched, no event is emitted, and
the invalid-status outcome is distinct from the update and not-found
outcomes. -/
theorem C6_invalid_status_rejected :
    (∀ v store now st rest, v.statuses = some (st :: rest) →
      statusTargetId st ≠ "" → st.status ∉ validStatuses →
      processStatusUpdate v store now = (.invalidStatus, store, [])) ∧
    (∀ mid s store now, mid ≠ "" → s ≠ "" → s ∉ validStatuses →
      updateMessageStatus mid s store now = (.invalidStatus, store, [])) ∧
    StatusResult.invalidStatus ≠ StatusResult.updated ∧
    StatusResult.invalidStatus ≠ StatusResult.notFound ∧
    UpdateResult.invalidStatus ≠ UpdateResult.notFound := by
  refine ⟨?_, ?_, by decide, by decide, by decide⟩
  · intro v store now st rest hv hid hs
    simp [processStatusUpdate, hv, hid, hs]
  · intro mid s store now hmid hs hvs
    simp [updateMessageStatus, hmid, hs, hvs]

/-- C6 witness: the unrecognized status failed is rejected as invalid input
with the store untouched. -/
theorem C6_witness :
    processStatusUpdate c6Value [] 4 = (.invalidStatus, [], []) :=
  C6_invalid_status_rejected.1 c6Value [] 4 c6Status [] rfl (by decide)
    (by decide)

/-- C7: a status-transition request whose target id matches no stored
message reports not-found on both the webhook path and the direct endpoint:
the store is untouched and no event is published. -/
theorem C7_not_found :
    (∀ v store now st rest, v.statuses = some (st :: rest) →
      statusTargetId st ≠ "" → st.status ∈ validStatuses →
      (∀ r ∈ store, r.messageId ≠ statusTargetId st) →
      processStatusUpdate v store now = (.notFound, store, [])) ∧
    (∀ mid s store now, mid ≠ "" → s ∈ validStatuses →
      (∀ r ∈ store, r.messageId ≠ mid) →
      updateMessageStatus mid s store now = (.notFound, store, [])) := by
  constructor
  · intro v store now st rest hv hid hs hfresh
    have hnone := find?_eq_none_of_fresh hfresh
    simp [processStatusUpdate, hv, hid, hs, hnone]
  · intro mid s store now hmid hs hfresh
    have hse := mem_validStatuses_ne_empty hs
    have hupd := findOneAndUpdateStatus_none mid s now store hfresh
    simp [updateMessageStatus, hmid, hse, hs, hupd]

/-- C7 witness: the transition request for the unknown id ghost reports
not-found on both paths with the store untouched and no event. -/
theorem C7_witness :
    processStatusUpdate c7Value [] 4 = (.notFound, [], []) ∧
    updateMessageStatus ("ghost") ("read") [] 4 = (.notFound, [], []) :=
  ⟨C7_not_found.1 c7Value [] 4 c7Status [] rfl (by decide) (by decide)
      (by intro r hr; simp at hr),
   C7_not_found.2 ("ghost") ("read") [] 4 (by decide) (by decide)
      (by intro r hr; simp at hr)⟩

/-- C1 counterexample: the stored record m1 is at status read and a webhook
status envelope requests sent; the code applies the backward transition, so
the record changes and its status moves from read back to sent, refuting
the forward-only no-op policy. -/
theorem C1_counterexample :
    (processStatusUpdate c1Value [c1Record] 7).1 = StatusResult.updated ∧
    (processStatusUpdate c1Value [c1Record] 7).2.1 ≠ [c1Record] ∧
    [c1Record].map Msg.status = ["read"] ∧
    (processStatusUpdate c1Value [c1Record] 7).2.1.map Msg.status = ["sent"] := by
  decide

theorem setStatusFirst_sets_first (mid s : String) (now : Nat) :
    ∀ (store : List Msg) (i : Nat) (hi : i < store.length),
      (store.get ⟨i, hi⟩).messageId = mid →
      (∀ j (hj : j < i), (store.get ⟨j, Nat.lt_trans hj hi⟩).messageId ≠ mid) →
      setStatusFirst mid s now store =
        store.set i { store.get ⟨i, hi⟩ with status := s, updatedAt := now }
  | [], i, hi, _, _ => absurd hi (Nat.not_lt_zero i)
  | r :: rs, 0, hi, hmatch, _ => by
    simp only [List.get] at hmatch
    simp [setStatusFirst, hmatch, List.set]
  | r :: rs, i + 1, hi, hmatch, hfirst => by
    have hr : r.messageId ≠ mid := by
      have h0 := hfirst 0 (Nat.succ_pos i)
      simpa using h0
    have ih := setStatusFirst_sets_first mid s now rs i (Nat.lt_of_succ_lt_succ hi)
      (by simpa using hmatch)
      (fun j hj => by
        have hj2 := hfirst (j + 1) (Nat.succ_lt_succ hj)
        simpa using hj2)
    simp [setStatusFirst, hr, List.set, ih]

theorem findOneAndUpdateStatus_sets_first (mid s : String) (now : Nat) :
    ∀ (store : List Msg) (i : Nat) (hi : i < store.length),
      (store.get ⟨i, hi⟩).messageId = mid →
      (∀ j (hj : j < i), (store.get ⟨j, Nat.lt_trans hj hi⟩).messageId ≠ mid) →
      findOneAndUpdateStatus mid s now store =
        (some { store.get ⟨i, hi⟩ with status := s, updatedAt := now },
         store.set i { store.get ⟨i, hi⟩ with status := s, updatedAt := now })
  | [], i, hi, _, _ => absurd hi (Nat.not_lt_zero i)
  | r :: rs, 0, hi, hmatch, _ => by
    simp only [List.get] at hmatch
    simp [findOneAndUpdateStatus, hmatch, List.set]
  | r :: rs, i + 1, hi, hmatch, hfirst => by
    have hr : r.messageId ≠ mid := by
      have h0 := hfirst 0 (Nat.succ_pos i)
      simpa using h0
    have ih := findOneAndUpdateStatus_sets_first mid s now rs i
      (Nat.lt_of_succ_lt_succ hi) (by simpa using hmatch)
      (fun j hj => by
        have hj2 := hfirst (j + 1) (Nat.succ_lt_succ hj)
        simpa using hj2)
    simp [findOneAndUpdateStatus, hr, List.set, ih]

/-- C1 amended: a status-transition request whose status string is one of
sent, delivered, read and whose id matches a stored message sets the first
matching record's status to the requested value unconditionally, backward
and repeated moves included, refreshing updatedAt and leaving every other
record unchanged — on the webhook status path and on the direct
status-update endpoint alike; no forward-only policy is enforced on either
path. -/
theorem C1_amended_unconditional (store : List Msg) (now : Nat)
    (i : Nat) (hi : i < store.length) (mid : String)
    (hmatch : (store.get ⟨i, hi⟩).messageId = mid)
    (hfirst : ∀ j (hj : j < i),
      (store.get ⟨j, Nat.lt_trans hj hi⟩).messageId ≠ mid) :
    (∀ v st rest, v.statuses = some (st :: rest) → statusTargetId st = mid →
      mid ≠ "" → st.status ∈ validStatuses →
      processStatusUpdate v store now =
        (.updated,
         store.set i { store.get ⟨i, hi⟩ with status := st.status, updatedAt := now },
         [])) ∧
    (∀ s, mid ≠ "" → s ∈ validStatuses →
      updateMessageStatus mid s store now =
        (.ok { store.get ⟨i, hi⟩ with status := s, updatedAt := now },
         store.set i { store.get ⟨i, hi⟩ with status := s, updatedAt := now },
         [.statusUpdated (store.get ⟨i, hi⟩).conversationId mid s now])) := by
  constructor
  · intro v st rest hv hmid hid hs
    have hmatch2 : (store.get ⟨i, hi⟩).messageId = statusTargetId st := by
      rw [hmid]
      exact hmatch
    have hfirst2 : ∀ j (hj : j < i),
        (store.get ⟨j, Nat.lt_trans hj hi⟩).messageId ≠ statusTargetId st := by
      intro j hj
      rw [hmid]
      exact hfirst j hj
    have hsome := find?_isSome_of_mem (List.get_mem store i hi) hmatch2
    have hset := setStatusFirst_sets_first (statusTargetId st) st.status now store
      i hi hmatch2 hfirst2
    have hid2 : statusTargetId st ≠ "" := by
      rw [hmid]
      exact hid
    simp [processStatusUpdate, hv, hid2, hs, hsome, hset]
  · intro s hid hs
    have hse := mem_validStatuses_ne_empty hs
    have hupd := findOneAndUpdateStatus_sets_first mid s now store i hi hmatch
      hfirst
    unfold updateMessageStatus
    rw [if_neg (by simp [hid, hse]), if_neg (not_not_intro hs), hupd]

/-- C1 witness: the backward move of the counterexample is exactly an
unconditional overwrite of the read record to sent, on the webhook path and
on the direct endpoint alike, with the endpoint also reporting the updated
record and publishing its event. -/
theorem C1_witness :
    processStatusUpdate c1Value [c1Record] 7 =
      (.updated, [{ c1Record with status := "sent", updatedAt := 7 }], []) ∧
    updateMessageStatus ("m1") ("sent") [c1Record] 7 =
      (.ok { c1Record with status := "sent", updatedAt := 7 },
       [{ c1Record with status := "sent", updatedAt := 7 }],
       [SocketEvent.statusUpdated ("conv_5551234") ("m1") ("sent") 7]) := by
  have h := C1_amended_unconditional [c1Record] 7 0 (by decide) ("m1")
    (by decide) (fun j hj => absurd hj (Nat.not_lt_zero j))
  constructor
  · have h1 := h.1 c1Value c1Status [] rfl (by decide) (by decide) (by decide)
    simpa using h1
  · have h2 := h.2 ("sent") (by decide) (by decide)
    simpa using h2

/-- C3 counterexample: the spec scenario's webhook status envelope moves m1
to delivered, yet the webhook status path publishes no event at all, so no
message-status-updated event reaches channel conv_5551234 on that path. -/
theorem C3_counterexample :
    (processStatusUpdate c3Value [c3Record] 5).1 = StatusResult.updated ∧
    (processStatusUpdate c3Value [c3Record] 5).2.1.map Msg.status = ["delivered"] ∧
    (processStatusUpdate c3Value [c3Record] 5).2.2 = [] := by
  decide

/-- C3 amended: only the direct status-update endpoint publishes the
message-status-updated event, to the updated message's conversationId
channel and carrying the external message id, the new status and the
refreshed updatedAt; the webhook status path never publishes any event. -/
theorem C3_amended_fanout :
    (∀ v store now, (processStatusUpdate v store now).2.2 = []) ∧
    (∀ mid s store now r, mid ≠ "" → s ∈ validStatuses →
      store.find? (fun x => x.messageId == mid) = some r →
      (updateMessageStatus mid s store now).1 =
        UpdateResult.ok { r with status := s, updatedAt := now } ∧
      (updateMessageStatus mid s store now).2.2 =
        [SocketEvent.statusUpdated r.conversationId mid s now]) := by
  constructor
  · intro v store now
    unfold processStatusUpdate
    cases h : (v.statuses.getD []).head? with
    | none => rfl
    | some st =>
      by_cases h1 : statusTargetId st = ""
      · simp [h1]
      · by_cases h2 : st.status ∈ validStatuses
        · by_cases h3 : (store.find? (fun r => r.messageId == statusTargetId st)).isSome
          · simp [h1, h2, h3]
          · simp [h1, h2, h3]
        · simp [h1, h2]
  · intro mid s store now r hmid hs hfind
    have hse := mem_validStatuses_ne_empty hs
    have h1 := findOneAndUpdateStatus_first mid s now store r hfind
    unfold updateMessageStatus
    rw [if_neg (by simp [hmid, hse])]
    rw [if_neg (not_not_intro hs)]
    rcases hfd : findOneAndUpdateStatus mid s now store with ⟨u, store2⟩
    rw [hfd] at h1
    simp only at h1
    subst h1
    exact ⟨rfl, rfl⟩

/-- C3 witness: the direct endpoint moving m1 to delivered publishes the
event on channel conv_5551234 with the id, status and new timestamp. -/
theorem C3_witness :
    (updateMessageStatus ("m1") ("delivered") [c3Record] 6).2.2 =
      [SocketEvent.statusUpdated "conv_5551234" "m1" "delivered" 6] := by
  have h := C3_amended_fanout.2 ("m1") ("delivered") [c3Record] 6 c3Record
    (by decide) (by decide) (by decide)
  rw [h.2]
  rfl

/-- C8 counterexample: a valid never-seen message envelope processed by the
webhook pipeline inserts the record but publishes nothing, so no new-message
event is emitted on that path. -/
theorem C8_counterexample :
    (processMessage c8Value [] 5).1 = MsgResult.inserted ∧
    (processMessage c8Value [] 5).2.1.length = 1 ∧
    (processMessage c8Value [] 5).2.2 = [] := by
  decide

/-- C8 amended: the webhook new-message path inserts without publishing any
event; only the direct-send endpoint publishes the new-message event
carrying the full saved record to the conversationId channel. -/
theorem C8_amended_fanout :
    (∀ v store now, (processMessage v store now).2.2 = []) ∧
    (∀ cid f t b un fid store now, cid ≠ "" → f ≠ "" → t ≠ "" → b ≠ "" →
      ∃ saved,
        sendMessage cid f t b un fid store now =
          (.created saved, store ++ [saved], [.newMessage cid saved]) ∧
        saved.conversationId = cid ∧ saved.status = "sent" ∧
        saved.body = strTrim b ∧ saved.messageId = fid) := by
  constructor
  · intro v store now
    unfold processMessage
    cases h : (v.messages.getD []).head? with
    | none => rfl
    | some m =>
      by_cases h1 : m.id = ""
      · simp [h1]
      · by_cases h2 : (store.find? (fun r => r.messageId == m.id)).isSome
        · simp [h1, h2]
        · simp [h1, h2]
  · intro cid f t b un fid store now hc hf ht hb
    refine ⟨Msg.mk cid fid f t now ("text") (strTrim b) ("sent") (jsOrS un ("Business")) now now, ?_, rfl, rfl, rfl, rfl⟩
    simp [sendMessage, hc, hf, ht, hb]

/-- C8 witness: webhook processing of the fresh m8 envelope emits nothing,
while a direct send emits exactly one new-message event. -/
theorem C8_witness :
    (processMessage c8Value [] 5).2.2 = [] ∧
    (sendMessage ("conv_5551234") ("918329446654") ("5551234") (" hey ") none
      ("msg_1") [] 6).2.2.length = 1 := by
  refine ⟨C8_amended_fanout.1 c8Value [] 5, ?_⟩
  obtain ⟨saved, hsend, -, -, -, -⟩ := C8_amended_fanout.2 ("conv_5551234")
    ("918329446654") ("5551234") (" hey ") none ("msg_1") [] 6
    (by decide) (by decide) (by decide) (by decide)
  rw [hsend]
  rfl

/-- C10: the business number used for classification is phone_number_id
when nonempty, else display_phone_number when nonempty, else the hard-coded
literal 918329446654; the sender classification and the conversation id use
exact string equality on the raw values with no phone-number normalization,
so a plus-prefixed rendering of the business number counts as an external
party and the derived id differs from what the normalizing helper
getConversationId would produce. -/
theorem C10_raw_business_number :
    (∀ v md, v.metadata = some md → md.phoneNumberId ≠ "" →
      businessNumberOf v = md.phoneNumberId) ∧
    (∀ v md, v.metadata = some md → md.phoneNumberId = "" →
      md.displayPhoneNumber ≠ "" → businessNumberOf v = md.displayPhoneNumber) ∧
    (∀ v md, v.metadata = some md → md.phoneNumberId = "" →
      md.displayPhoneNumber = "" → businessNumberOf v = "918329446654") ∧
    (∀ v, v.metadata = none → businessNumberOf v = "918329446654") ∧
    (∀ v store now m rest, v.messages = some (m :: rest) → m.id ≠ "" →
      (∀ r ∈ store, r.messageId ≠ m.id) →
      (processMessage v store now).2.1 = store ++ [mkRecord v m now] ∧
      (mkRecord v m now).conversationId =
        "conv_" ++ (if m.from_ = businessNumberOf v then jsOrS m.to_ ("")
          else m.from_)) ∧
    ((mkRecord c10ValueB c10MessageB 9).conversationId = "conv_+918329446654" ∧
      getConversationId ("+918329446654") ("918329446654") = "conv_918329446654" ∧
      ("conv_+918329446654" : String) ≠ "conv_918329446654") := by
  refine ⟨?_, ?_, ?_, ?_, ?_, by decide, by decide, by decide⟩
  · intro v md hmd hne
    simp [businessNumberOf, hmd, jsOrS, hne]
  · intro v md hmd hpe hde
    simp [businessNumberOf, hmd, jsOrS, hpe, hde]
  · intro v md hmd hpe hde
    simp [businessNumberOf, hmd, jsOrS, hpe, hde]
  · intro v hmd
    simp [businessNumberOf, hmd, jsOrS]
  · intro v store now m rest hm hid hfresh
    have hnone := find?_eq_none_of_fresh hfresh
    refine ⟨by simp [processMessage, hm, hid, hnone], ?_⟩
    simp only [mkRecord, ite_not]

/-- C10 witness: for the metadata carrying a formatted phone_number_id the
resolved business number is that raw string, formatting included. -/
theorem C10_witness :
    businessNumberOf c10Value = "+91 832-9446654" :=
  C10_raw_business_number.1 c10Value c10Metadata rfl (by decide)

/-! Helper lemmas for the conversation aggregation. -/

theorem mkSummary_conversationId (sorted : List Msg) (cid : String) :
    (mkSummary sorted cid).conversationId = cid := rfl

theorem mkSummary_messageCount (sorted : List Msg) (cid : String) :
    (mkSummary sorted cid).messageCount =
      (sorted.filter (fun m => m.conversationId == cid)).length := rfl

theorem mkSummary_lastMessageBody (sorted : List Msg) (cid : String) :
    (mkSummary sorted cid).lastMessageBody =
      (((sorted.filter (fun m => m.conversationId == cid)).getLast?).map
        Msg.body).getD ("") := rfl

theorem mkSummary_lastTimestamp (sorted : List Msg) (cid : String) :
    (mkSummary sorted cid).lastTimestamp =
      (((sorted.filter (fun m => m.conversationId == cid)).getLast?).map
        Msg.timestamp).getD 0 := rfl

theorem mkSummary_userName (sorted : List Msg) (cid : String) :
    (mkSummary sorted cid).userName =
      match (sorted.filter (fun m => m.conversationId == cid)).find?
          (fun m => !(m.userName == "Business")) with
      | some m => m.userName
      | none => "+" ++ cid.drop 5 := rfl

theorem pairwise_getLast?_max :
    ∀ (l : List Msg), l.Pairwise msgLe → ∀ (m : Msg), l.getLast? = some m →
      ∀ x ∈ l, x.timestamp ≤ m.timestamp
  | [], _, m, hm => by simp at hm
  | [a], _, m, hm => by
    simp only [List.getLast?_singleton, Option.some.injEq] at hm
    subst hm
    intro x hx
    simp only [List.mem_singleton] at hx
    subst hx
    exact Nat.le_refl _
  | a :: b :: t, hp, m, hm => by
    have hm2 : (b :: t).getLast? = some m := by
      rw [← List.getLast?_cons_cons]
      exact hm
    have hmem : m ∈ b :: t := by
      have hne : (b :: t) ≠ [] := by simp
      rw [List.getLast?_eq_getLast_of_ne_nil hne] at hm2
      have hgl : (b :: t).getLast hne = m := by
        injection hm2
      rw [← hgl]
      exact List.getLast_mem hne
    have hrest := pairwise_getLast?_max (b :: t) (List.pairwise_cons.mp hp).2 m
      (by rw [← List.getLast?_cons_cons]; exact hm)
    intro x hx
    rcases List.mem_cons.mp hx with rfl | hx2
    · exact (List.pairwise_cons.mp hp).1 m hmem
    · exact hrest x hx2

theorem pairwise_find?_min (p : Msg → Bool) :
    ∀ (l : List Msg), l.Pairwise msgLe → ∀ (m : Msg), l.find? p = some m →
      ∀ x ∈ l, p x = true → m.timestamp ≤ x.timestamp
  | [], _, m, hm => by simp at hm
  | a :: t, hp, m, hm => by
    by_cases hpa : p a
    · rw [List.find?_cons_of_pos t hpa] at hm
      have ham : a = m := by injection hm
      subst ham
      intro x hx hpx
      rcases List.mem_cons.mp hx with rfl | hx2
      · exact Nat.le_refl _
      · exact (List.pairwise_cons.mp hp).1 x hx2
    · rw [List.find?_cons_of_neg t hpa] at hm
      have ih := pairwise_find?_min p t (List.pairwise_cons.mp hp).2 m hm
      intro x hx hpx
      rcases List.mem_cons.mp hx with rfl | hx2
      · exact absurd hpx hpa
      · exact ih x hx2 hpx

theorem sorted_perm_ts_nodup_eq :
    ∀ (l1 l2 : List Msg), l1.Perm l2 → l1.Pairwise msgLe → l2.Pairwise msgLe →
      (l1.map Msg.timestamp).Nodup → l1 = l2
  | [], l2, hp, _, _, _ => hp.nil_eq
  | a :: t, l2, hp, hs1, hs2, hn => by
    cases l2 with
    | nil => exact absurd hp.symm.nil_eq (by simp)
    | cons b t2 =>
      have hbmem : b ∈ a :: t := hp.mem_iff.mpr (List.mem_cons_self b t2)
      have hamem : a ∈ b :: t2 := hp.mem_iff.mp (List.mem_cons_self a t)
      have hab : a = b := by
        have h1 : a.timestamp ≤ b.timestamp := by
          rcases List.mem_cons.mp hbmem with rfl | hbt
          · exact Nat.le_refl _
          · exact (List.pairwise_cons.mp hs1).1 b hbt
        have h2 : b.timestamp ≤ a.timestamp := by
          rcases List.mem_cons.mp hamem with heq | hat
          · rw [heq]
          · exact (List.pairwise_cons.mp hs2).1 a hat
        exact List.inj_on_of_nodup_map hn (List.mem_cons_self a t) hbmem
          (Nat.le_antisymm h1 h2)
      subst hab
      have htail := sorted_perm_ts_nodup_eq t t2 hp.cons_inv
        (List.pairwise_cons.mp hs1).2 (List.pairwise_cons.mp hs2).2
        (by
          have hn2 : (Msg.timestamp a :: t.map Msg.timestamp).Nodup := by
            simpa using hn
          exact (List.nodup_cons.mp hn2).2)
      rw [htail]

/-- C9: getConversations yields exactly one summary per distinct
conversationId present in the store, sorted descending by lastTimestamp;
each summary's messageCount is the conversation's total, its
lastMessageBody and lastTimestamp come from a chronologically latest
message of the conversation, the displayed name is the name of an earliest
non-Business sender when one exists and the synthesized plus-number
fallback otherwise, and when all timestamps are pairwise distinct the whole
result is independent of the insertion order of the store. -/
theorem C9_conversation_aggregation (msgs : List Msg) :
    ((getConversations msgs).Pairwise
      (fun a b => b.lastTimestamp ≤ a.lastTimestamp)) ∧
    ((getConversations msgs).map ConvSummary.conversationId).Nodup ∧
    (∀ cid, (∃ m ∈ msgs, m.conversationId = cid) ↔
      (∃ s ∈ getConversations msgs, s.conversationId = cid)) ∧
    (∀ s ∈ getConversations msgs,
      s.messageCount =
        (msgs.filter (fun m => m.conversationId == s.conversationId)).length ∧
      (∃ m ∈ msgs, m.conversationId = s.conversationId ∧
        s.lastMessageBody = m.body ∧ s.lastTimestamp = m.timestamp ∧
        ∀ m2 ∈ msgs, m2.conversationId = s.conversationId →
          m2.timestamp ≤ m.timestamp) ∧
      ((∃ m ∈ msgs, m.conversationId = s.conversationId ∧
          m.userName ≠ "Business") →
        ∃ m ∈ msgs, m.conversationId = s.conversationId ∧
          m.userName ≠ "Business" ∧ s.userName = m.userName ∧
          ∀ m2 ∈ msgs, m2.conversationId = s.conversationId →
            m2.userName ≠ "Business" → m.timestamp ≤ m2.timestamp) ∧
      ((∀ m ∈ msgs, m.conversationId = s.conversationId →
          m.userName = "Business") →
        s.userName = "+" ++ s.conversationId.drop 5)) ∧
    (∀ msgs2, msgs.Perm msgs2 → (msgs.map Msg.timestamp).Nodup →
      getConversations msgs = getConversations msgs2) := by
  have hperm : (List.insertionSort msgLe msgs).Perm msgs :=
    List.perm_insertionSort msgLe msgs
  have hsort : (List.insertionSort msgLe msgs).Pairwise msgLe :=
    List.sorted_insertionSort msgLe msgs
  have hgc : getConversations msgs =
      List.insertionSort summaryGe
        ((((List.insertionSort msgLe msgs).map Msg.conversationId).dedup).map
          (mkSummary (List.insertionSort msgLe msgs))) := rfl
  have hmapconv : ∀ (cs : List String) (sor : List Msg),
      (cs.map (mkSummary sor)).map ConvSummary.conversationId = cs := by
    intro cs sor
    induction cs with
    | nil => rfl
    | cons c cst ih => simp [mkSummary_conversationId, ih]
  have hmemS : ∀ s, s ∈ getConversations msgs ↔
      ∃ c ∈ ((List.insertionSort msgLe msgs).map Msg.conversationId).dedup,
        s = mkSummary (List.insertionSort msgLe msgs) c := by
    intro s
    rw [hgc, (List.perm_insertionSort summaryGe _).mem_iff]
    constructor
    · intro hs
      rcases List.mem_map.mp hs with ⟨c, hc, rfl⟩
      exact ⟨c, hc, rfl⟩
    · rintro ⟨c, hc, rfl⟩
      exact List.mem_map.mpr ⟨c, hc, rfl⟩
  have h1 : (getConversations msgs).Pairwise
      (fun a b => b.lastTimestamp ≤ a.lastTimestamp) := by
    rw [hgc]
    exact List.sorted_insertionSort summaryGe _
  have h2 : ((getConversations msgs).map ConvSummary.conversationId).Nodup := by
    rw [hgc]
    have hp2 := (List.perm_insertionSort summaryGe
      ((((List.insertionSort msgLe msgs).map Msg.conversationId).dedup).map
        (mkSummary (List.insertionSort msgLe msgs)))).map ConvSummary.conversationId
    refine hp2.nodup_iff.mpr ?_
    rw [hmapconv]
    exact List.nodup_dedup _
  have h3 : ∀ cid, (∃ m ∈ msgs, m.conversationId = cid) ↔
      (∃ s ∈ getConversations msgs, s.conversationId = cid) := by
    intro cid
    constructor
    · rintro ⟨m, hm, rfl⟩
      refine ⟨mkSummary (List.insertionSort msgLe msgs) m.conversationId, ?_, rfl⟩
      refine (hmemS _).mpr ⟨m.conversationId, ?_, rfl⟩
      rw [List.mem_dedup]
      exact List.mem_map.mpr ⟨m, hperm.mem_iff.mpr hm, rfl⟩
    · rintro ⟨s, hs, rfl⟩
      rcases (hmemS s).mp hs with ⟨c, hc, rfl⟩
      rw [List.mem_dedup] at hc
      rcases List.mem_map.mp hc with ⟨m, hm, rfl⟩
      exact ⟨m, hperm.mem_iff.mp hm, rfl⟩
  have h4 : ∀ s ∈ getConversations msgs,
      s.messageCount =
        (msgs.filter (fun m => m.conversationId == s.conversationId)).length ∧
      (∃ m ∈ msgs, m.conversationId = s.conversationId ∧
        s.lastMessageBody = m.body ∧ s.lastTimestamp = m.timestamp ∧
        ∀ m2 ∈ msgs, m2.conversationId = s.conversationId →
          m2.timestamp ≤ m.timestamp) ∧
      ((∃ m ∈ msgs, m.conversationId = s.conversationId ∧
          m.userName ≠ "Business") →
        ∃ m ∈ msgs, m.conversationId = s.conversationId ∧
          m.userName ≠ "Business" ∧ s.userName = m.userName ∧
          ∀ m2 ∈ msgs, m2.conversationId = s.conversationId →
            m2.userName ≠ "Business" → m.timestamp ≤ m2.timestamp) ∧
      ((∀ m ∈ msgs, m.conversationId = s.conversationId →
          m.userName = "Business") →
        s.userName = "+" ++ s.conversationId.drop 5) := by
    intro s hs
    rcases (hmemS s).mp hs with ⟨c, hc, rfl⟩
    rw [List.mem_dedup] at hc
    rcases List.mem_map.mp hc with ⟨m0, hm0, hm0c⟩
    simp only [mkSummary_messageCount, mkSummary_lastMessageBody,
      mkSummary_lastTimestamp, mkSummary_userName, mkSummary_conversationId]
    set grp := (List.insertionSort msgLe msgs).filter
      (fun m => m.conversationId == c) with hgrpdef
    have hgrp_sorted : grp.Pairwise msgLe := List.Pairwise.filter _ hsort
    have hm0grp : m0 ∈ grp := List.mem_filter.mpr ⟨hm0, by simp [hm0c]⟩
    have hgrpne : grp ≠ [] := List.ne_nil_of_mem hm0grp
    have hmem_grp : ∀ x, x ∈ grp ↔ (x ∈ msgs ∧ x.conversationId = c) := by
      intro x
      rw [hgrpdef, List.mem_filter]
      constructor
      · rintro ⟨hx1, hx2⟩
        exact ⟨hperm.mem_iff.mp hx1, by simpa using hx2⟩
      · rintro ⟨hx1, hx2⟩
        exact ⟨hperm.mem_iff.mpr hx1, by simpa using hx2⟩
    refine ⟨?_, ?_, ?_, ?_⟩
    · rw [hgrpdef]
      exact (hperm.filter _).length_eq
    · have hlast := List.getLast?_eq_getLast_of_ne_nil hgrpne
      have hlastmem : grp.getLast hgrpne ∈ grp := List.getLast_mem hgrpne
      have hmax := pairwise_getLast?_max grp hgrp_sorted (grp.getLast hgrpne) hlast
      refine ⟨grp.getLast hgrpne, ((hmem_grp _).mp hlastmem).1,
        ((hmem_grp _).mp hlastmem).2, ?_, ?_, ?_⟩
      · rw [hlast]
        rfl
      · rw [hlast]
        rfl
      · intro m2 hm2 hc2
        exact hmax m2 ((hmem_grp m2).mpr ⟨hm2, hc2⟩)
    · intro hex
      cases hfind : grp.find? (fun m => !(m.userName == "Business")) with
      | none =>
        exfalso
        rcases hex with ⟨m1, hm1, hc1, hb1⟩
        have hm1grp : m1 ∈ grp := (hmem_grp m1).mpr ⟨hm1, hc1⟩
        have hnone := List.find?_eq_none.mp hfind m1 hm1grp
        simp [hb1] at hnone
      | some mf =>
        have hmf_mem : mf ∈ grp := List.mem_of_find?_eq_some hfind
        have hmf_p := List.find?_some hfind
        have hmf_min := pairwise_find?_min _ grp hgrp_sorted mf hfind
        refine ⟨mf, ((hmem_grp mf).mp hmf_mem).1, ((hmem_grp mf).mp hmf_mem).2,
          ?_, ?_, ?_⟩
        · simpa using hmf_p
        · rfl
        · intro m2 hm2 hc2 hb2
          exact hmf_min m2 ((hmem_grp m2).mpr ⟨hm2, hc2⟩) (by simp [hb2])
    · intro hall
      cases hfind : grp.find? (fun m => !(m.userName == "Business")) with
      | none => rfl
      | some mf =>
        exfalso
        have hmf_mem : mf ∈ grp := List.mem_of_find?_eq_some hfind
        have hmf_p := List.find?_some hfind
        have hmfb := hall mf ((hmem_grp mf).mp hmf_mem).1 ((hmem_grp mf).mp hmf_mem).2
        simp [hmfb] at hmf_p
  have h5 : ∀ msgs2, msgs.Perm msgs2 → (msgs.map Msg.timestamp).Nodup →
      getConversations msgs = getConversations msgs2 := by
    intro msgs2 hp12 hn
    have hs2 : (List.insertionSort msgLe msgs2).Pairwise msgLe :=
      List.sorted_insertionSort msgLe msgs2
    have hpp : (List.insertionSort msgLe msgs).Perm
        (List.insertionSort msgLe msgs2) :=
      hperm.trans (hp12.trans (List.perm_insertionSort msgLe msgs2).symm)
    have hnn : ((List.insertionSort msgLe msgs).map Msg.timestamp).Nodup :=
      ((hperm.map Msg.timestamp).nodup_iff).mpr hn
    have heq := sorted_perm_ts_nodup_eq (List.insertionSort msgLe msgs)
      (List.insertionSort msgLe msgs2) hpp hsort hs2 hnn
    simp only [getConversations]
    rw [heq]
  exact ⟨h1, h2, h3, h4, h5⟩

/-- C9 witness: on the concrete three-message store the aggregation exposes
a summary for conversation conv_111. -/
theorem C9_witness :
    ∃ s ∈ getConversations c9Store, s.conversationId = "conv_111" :=
  ((C9_conversation_aggregation c9Store).2.2.1 ("conv_111")).mp
    ⟨c9MsgA1, by simp [c9Store], rfl⟩

end WhatsApp
